import Mathlib

/-!
Verification of the mentor-chat repository: a shallow embedding of
`buildSystemPrompt` and the `POST` handler from `src/app/api/mentor/route.ts`,
and of `generateSkillsPath` and `handleSend` from the chat page component,
together with proofs of the specified properties.

JavaScript strings are modelled as Lean `String`s; `Array.prototype.join`,
`Array.prototype.filter(Boolean)`, `String.prototype.trim` and substring
containment are modelled by the executable helpers below.
-/

set_option maxRecDepth 1000000

/-- Whitespace characters relevant to JavaScript `String.prototype.trim`
(the inputs in this development only ever carry spaces, tabs, newlines). -/
def jsWhitespace (c : Char) : Bool :=
  c == ' ' || c == '\t' || c == '\n' || c == '\r' || c == '\x0b' || c == '\x0c' || c == ' '

/-- Model of JavaScript `String.prototype.trim`: drop leading and trailing
whitespace. -/
def jsTrim (s : String) : String :=
  ⟨((s.data.dropWhile jsWhitespace).reverse.dropWhile jsWhitespace).reverse⟩

/-- Boolean prefix test on character lists (kernel-reduction friendly). -/
def isPrefixOfCL : List Char → List Char → Bool
  | [], _ => true
  | _ :: _, [] => false
  | a :: as, b :: bs => a == b && isPrefixOfCL as bs

/-- Boolean substring search: does `pat` occur as a contiguous run inside the
second list?  Models JavaScript `String.prototype.includes`. -/
def containsList (pat : List Char) : List Char → Bool
  | [] => isPrefixOfCL pat []
  | c :: rest => isPrefixOfCL pat (c :: rest) || containsList pat rest

/-- `containsStr s pat`: the string `s` has `pat` as a substring. -/
def containsStr (s pat : String) : Bool :=
  containsList pat.data s.data

/-- Model of JavaScript `Array.prototype.join(sep)` on an array of strings. -/
def joinWith (sep : String) : List String → String
  | [] => ""
  | [x] => x
  | x :: xs => x ++ sep ++ joinWith sep xs

/-- JavaScript truthiness of a string: every string except `""` is truthy.
Used to model `filter(Boolean)` and `caseTag ? _ : _`. -/
def strTruthy (s : String) : Bool :=
  !s.data.isEmpty

/-- The fixed base persona paragraph (source: `basePersona`, built with `.trim()`). -/
def basePersona : String :=
  jsTrim "\nYou are \"Junior Analyst Mentor\", a confidential, senior-feeling coach for young research analysts in asset management.\n\nYour job:\n- Help them think more clearly.\n- Help them communicate more clearly.\n- Help them navigate expectations with PMs, teams, and clients.\n\nYou speak like a thoughtful senior analyst / PM:\n- Direct but kind.\n- Concrete and structured.\n- No corporate jargon, no therapy-speak.\n"

/-- Text of the case-context sentence before the interpolated case tag. -/
def casePre : String :=
  "This conversation is part of an ongoing case the analyst calls “"

/-- Text of the case-context sentence after the interpolated case tag. -/
def casePost : String :=
  "”. Speak as a consistent mentor who remembers the general theme, even if you don’t recall every detail."

/-- Mode instruction block of the `switch` (case "communication_coach"), built with `.trim()`. -/
def communicationCoachInstructions : String :=
  jsTrim "\nYou are a senior analyst / PM helping a junior polish emails, Slack messages, and IC notes.\n\nAlways:\n- Start by showing that you understand the situation and what the junior is trying to do.\n- Suggest a clear structure or template they can reuse later.\n- Give a concrete rewritten draft or example, not just principles.\n- Offer 1–2 brief tips on tone (what a PM would appreciate, and what to avoid).\n\nIf they sound stressed or overwhelmed, acknowledge that first, then help them phrase their message or structure their note.\n"

/-- Mode instruction block of the `switch` (case "pm_simulator"), built with `.trim()`. -/
def pmSimulatorInstructions : String :=
  jsTrim "\nYou are acting like an investment PM who is tough but fair.\n\nAlways:\n- If they have NOT given a clear investment thesis yet, do NOT invent one. Ask 2–3 clarifying questions that help them articulate a thesis or narrow what they want to explore.\n- If they HAVE given a thesis, then:\n  - Ask 3–5 tough but fair questions about it.\n  - Focus on portfolio relevance, risk, catalysts, position sizing, and “what would change your mind”.\n  - Help them see how this idea fits into a portfolio and risk framework.\n- Keep the tone constructive; you are building their judgment, not shutting them down.\n"

/-- Mode instruction block of the `switch` (case "workflow_helper"), built with `.trim()`. -/
def workflowHelperInstructions : String :=
  jsTrim "\nYou are a calm, practical senior helping a junior structure their week and workload.\n\nAlways:\n- Help them clarify what's actually on their plate (tasks, deadlines, stakeholders).\n- Distinguish “must do today” vs “can slip” based on risk and relationships.\n- Propose a simple schedule or plan they can realistically follow.\n- Suggest what they should communicate to their PM (e.g. delays, trade-offs, questions).\n- If they sound emotionally overwhelmed, acknowledge that and give 1–2 small coping strategies.\n\nAlways refer back explicitly to the tasks or feelings they mention.\n"

/-- Mode instruction block of the `switch` (case "safe_qa" and the default branch), built with `.trim()`. -/
def safeQaInstructions : String :=
  jsTrim "\nYou are a psychologically safe mentor: someone a junior can ask the questions they are afraid to ask in real life.\n\nAlways:\n- Normalize their feelings (anxiety, confusion, imposter syndrome).\n- Explain norms and expectations in plain language.\n- Give 1–2 short example scripts they can actually say to a PM or colleague.\n- Suggest 1–2 small, low-risk next steps they can try this week.\n\nAvoid giving specific buy/sell recommendations on individual securities.\n"

/-- Output-structure directive used when the pmLens flag is true (`.trim()` applied). -/
def pmLensOnInstructions : String :=
  jsTrim "\nIMPORTANT – OUTPUT STRUCTURE WHEN PM LENS = ON:\n\n1) First, write your normal mentor answer under a heading:\n\"Mentor view:\"\nThen give your advice as a short, structured response (paragraphs and/or bullets).\n\n2) THEN, ALWAYS add a separate section starting EXACTLY with this line:\n\"If I were your PM reading this, here’s what I’d infer:\"\nUnder this line, write 2–4 bullet points describing what the PM might conclude about the analyst’s:\n- judgment,\n- communication,\n- reliability and follow-through.\n\nBe kind but honest. Focus on signals and perceptions, not on shaming the analyst.\nDo NOT skip this block when PM lens is on.\n"

/-- Output-structure directive used when the pmLens flag is false (`.trim()` applied). -/
def pmLensOffInstructions : String :=
  jsTrim "\nIMPORTANT – OUTPUT STRUCTURE WHEN PM LENS = OFF:\n\n- Only give your normal mentor answer.\n- DO NOT include any section that starts with \"If I were your PM reading this\".\n- DO NOT guess explicitly what the PM would infer. Just give guidance to the junior.\n"
/-- The `switch (mode)` of `buildSystemPrompt`: each recognized mode selects
its instruction block; `"safe_qa"` and every unrecognized mode fall through to
the default block. -/
def modeInstructionsFor (mode : String) : String :=
  if mode = "communication_coach" then communicationCoachInstructions
  else if mode = "pm_simulator" then pmSimulatorInstructions
  else if mode = "workflow_helper" then workflowHelperInstructions
  else safeQaInstructions

/-- The output-structure directive chosen by the pmLens flag. -/
def pmLensInstructionsFor (pmLens : Bool) : String :=
  if pmLens then pmLensOnInstructions else pmLensOffInstructions

/-- The optional case-context sentence: built when `caseTag` is truthy
(a non-null, non-empty string), empty otherwise. -/
def caseContextFor : Option String → String
  | some t => if strTruthy t then casePre ++ t ++ casePost else ""
  | none => ""

/-- Model of `buildSystemPrompt(mode, pmLens, caseTag)`: the segments are
filtered by truthiness, joined with a newline and trimmed, exactly as in
`[basePersona, "", caseContext, "", modeInstructions, "", pmLensInstructions]
.filter(Boolean).join("\n").trim()`. -/
def buildSystemPrompt (mode : String) (pmLens : Bool) (caseTag : Option String) : String :=
  jsTrim (joinWith "\n"
    (([basePersona, "", caseContextFor caseTag, "",
       modeInstructionsFor mode, "", pmLensInstructionsFor pmLens]).filter strTruthy))

/-- Strings whose case label (if present) does not itself embed either
output-structure directive.  Hypothesis of the amended C3. -/
def tagAvoidsDirectives : Option String → Bool
  | none => true
  | some t => !(containsStr t pmLensOnInstructions) && !(containsStr t pmLensOffInstructions)

/-- Message role, `"user" | "assistant"`. -/
inductive Role where
  | user
  | assistant
deriving DecidableEq

/-- `ClientMessage` of the API route (the page component calls the same shape
`ChatMessage`). -/
structure ChatMessage where
  role : Role
  content : String
deriving DecidableEq

abbrev ClientMessage := ChatMessage

/-- The parsed request body of `POST /api/mentor`.  `mode = none` models an
absent/undefined field, `messages = none` models a value that is not an array
(including an absent one); `pmLens`/`caseTag` are optional with destructuring
defaults `false`/`null` applied in `POST`. -/
structure MentorRequestBody where
  mode : Option String
  messages : Option (List ClientMessage)
  pmLens : Option Bool
  caseTag : Option String

/-- What `await req.json()` yields: a parsed body, or a parse exception
(carrying the `SyntaxError` message) caught by the handler's `try`. -/
inductive BodyInput where
  | malformed (errMsg : String)
  | parsed (body : MentorRequestBody)

/-- Outcome of the single `generateText` call to the external provider:
generated text, a thrown `Error` (with its message), or a thrown non-`Error`
value. -/
inductive ProviderOutcome where
  | success (text : String)
  | throwErr (msg : String)
  | throwNonErr

/-- Observable result of the `POST` handler: HTTP status, the JSON body's
`answer`/`error` fields, and the system prompt sent to the provider
(`none` when the provider was never invoked). -/
structure GatewayResult where
  status : Nat
  answer : Option String
  error : Option String
  calledWith : Option String
deriving DecidableEq

/-- JavaScript truthiness of the destructured `mode` field (`!mode` is true
for an absent field and for the empty string). -/
def modeTruthy : Option String → Bool
  | none => false
  | some s => strTruthy s

/-- The configuration-error message returned when `GROQ_API_KEY` is unset. -/
def missingKeyError : String :=
  "GROQ_API_KEY is not set. Locally, set it in .env.local. On Vercel, set it in Project → Settings → Environment Variables."

/-- The 400 message for a missing/invalid mode or message list. -/
def badRequestError : String :=
  "Missing or invalid 'mode' or 'messages' in request body"

/-- Generic message used when the caught exception is not an `Error`. -/
def genericServerError : String :=
  "Unexpected server error"

/-- Model of the `POST` handler of `src/app/api/mentor/route.ts`: checks the
credential, parses the body, validates `mode`/`messages`, builds the system
prompt, calls the provider, and maps every thrown exception to a 500. -/
def POST (apiKeyConfigured : Bool) (req : BodyInput) (provider : ProviderOutcome) :
    GatewayResult :=
  if !apiKeyConfigured then
    { status := 500, answer := none, error := some missingKeyError, calledWith := none }
  else
    match req with
    | .malformed errMsg =>
      { status := 500, answer := none, error := some errMsg, calledWith := none }
    | .parsed body =>
      let pmLens := body.pmLens.getD false
      let caseTag := body.caseTag
      if !(modeTruthy body.mode) || !body.messages.isSome || (body.messages.getD []).isEmpty then
        { status := 400, answer := none, error := some badRequestError, calledWith := none }
      else
        let system := buildSystemPrompt (body.mode.getD "") pmLens caseTag
        match provider with
        | .success text =>
          { status := 200, answer := some text, error := none, calledWith := some system }
        | .throwErr msg =>
          { status := 500, answer := none, error := some msg, calledWith := some system }
        | .throwNonErr =>
          { status := 500, answer := none, error := some genericServerError, calledWith := some system }

/-- A body that passes the handler's `mode`/`messages` validation. -/
def validBody (body : MentorRequestBody) : Bool :=
  modeTruthy body.mode && body.messages.isSome && !(body.messages.getD []).isEmpty

/-- The `SKILLS` list of the page component, as (id, label) pairs. -/
def SKILLS : List (String × String) :=
  [("data", "Data work (pulling, cleaning, basic analysis)"),
   ("modeling", "Modeling (Excel, valuations, scenarios)"),
   ("communication", "Communication (emails, IC notes, PM updates)"),
   ("judgment", "Investment judgment (sizing, catalysts, risk thinking)"),
   ("time", "Time & workflow management")]

/-- `SkillsScores`: the five self-reported confidence scores. -/
structure SkillsScores where
  data : Int
  modeling : Int
  communication : Int
  judgment : Int
  time : Int
deriving DecidableEq

/-- `Object.entries(scores)` in the object's key-insertion order. -/
def scoreEntries (s : SkillsScores) : List (String × Int) :=
  [("data", s.data), ("modeling", s.modeling), ("communication", s.communication),
   ("judgment", s.judgment), ("time", s.time)]

/-- Stable insertion of one entry into a list sorted by ascending score. -/
def insertAsc (p : String × Int) : List (String × Int) → List (String × Int)
  | [] => [p]
  | q :: qs => if p.2 ≤ q.2 then p :: q :: qs else q :: insertAsc p qs

/-- Stable sort by ascending score: models `entries.sort((a, b) => a[1] - b[1])`
(JavaScript `Array.prototype.sort` is stable). -/
def sortByScore (l : List (String × Int)) : List (String × Int) :=
  l.foldr insertAsc []

/-- `SKILLS.find((s) => s.id === id)?.label ?? id`. -/
def labelForSkill (id : String) : String :=
  ((SKILLS.find? (fun sk => sk.1 == id)).map (fun sk => sk.2)).getD id

/-- The labels of the two lowest-confidence skills, lowest first. -/
def weakestLabels (scores : SkillsScores) : List String :=
  ((sortByScore (scoreEntries scores)).take 2).map (fun e => labelForSkill e.1)

/-- One step of the three-week skills path. -/
structure SkillsPathStep where
  week : Nat
  label : String
  description : String
deriving DecidableEq, Inhabited

/-- The client-side skills path: three steps and a generation timestamp. -/
structure SkillsPath where
  steps : List SkillsPathStep
  generatedAt : String
deriving DecidableEq, Inhabited

/-- Model of `generateSkillsPath(scores)`.  `now` stands for
`new Date().toISOString()`.  Note that only `weakestLabels[0]` is interpolated
into step 1's description (JavaScript would render `undefined` for a missing
element, hence the `headD` default; with five entries it is unreachable). -/
def generateSkillsPath (scores : SkillsScores) (now : String) : SkillsPath :=
  { steps :=
      [{ week := 1, label := "Communication Coach",
         description := "Focus on communication and soft skills, especially around \"" ++
           (weakestLabels scores).headD "undefined" ++
           "\". Aim for ~3 real emails or updates this week using Communication Coach." },
       { week := 2, label := "PM Simulator",
         description := "Pick ONE investment idea and run 2 deeper PM Simulator sessions to pressure-test the thesis like an investment committee would." },
       { week := 3, label := "Workflow Helper",
         description := "Use Workflow Helper to structure a full week: daily tasks, research blocks, and check-ins with your PM around that same idea." }],
    generatedAt := now }

/-- The page component's `MentorMode` union. -/
inductive MentorMode where
  | communication_coach
  | pm_simulator
  | workflow_helper
  | safe_qa
deriving DecidableEq

/-- The part of the page component's React state that `handleSend` reads or
writes. -/
structure UIState where
  mode : MentorMode
  histories : MentorMode → List ChatMessage
  input : String
  loading : Bool
  errorMsg : String
  interactionCount : Nat
  checkInPrompt : Option String
  skillsPath : Option SkillsPath

/-- Outcome of the `fetch("/api/mentor")` round-trip inside `handleSend`:
an ok response with `data.answer`, a non-ok response with an optional
`data.error` field, or a thrown exception (network/JSON failure). -/
inductive FetchOutcome where
  | ok (answer : String)
  | httpError (errField : Option String)
  | networkThrow

/-- `setHistories((prev) => ({...prev, [m]: v}))`. -/
def setHistory (h : MentorMode → List ChatMessage) (m : MentorMode)
    (v : List ChatMessage) : MentorMode → List ChatMessage :=
  fun m' => if m' = m then v else h m'

/-- The check-in prompt text built after every fifth successful exchange. -/
def checkInText (sp : SkillsPath) : String :=
  "Quick check-in on " ++ ((sp.steps.head?.map (fun st => st.label)).getD "your main focus area") ++
    ": since we started, what has changed, and where are you still stuck?"

/-- Model of the page component's `handleSend`, sequencing its state updates:
early return on empty input or while loading; append the user message to the
current mode's history; then, by fetch outcome, append the assistant reply and
bump the interaction counter (possibly setting a check-in prompt), or set the
error message; `loading` is reset in `finally`. -/
def handleSend (s : UIState) (outcome : FetchOutcome) : UIState :=
  let trimmed := jsTrim s.input
  if !(strTruthy trimmed) || s.loading then s
  else
    let userMessage : ChatMessage := { role := Role.user, content := trimmed }
    let newHistory := s.histories s.mode ++ [userMessage]
    let s1 := { s with histories := setHistory s.histories s.mode newHistory,
                       input := "", loading := true, errorMsg := "" }
    match outcome with
    | .ok answer =>
      let reply : ChatMessage := { role := Role.assistant, content := answer }
      let s2 := { s1 with histories := setHistory s1.histories s.mode (newHistory ++ [reply]) }
      let next := s2.interactionCount + 1
      let s3 :=
        match s.skillsPath with
        | some sp =>
          if next % 5 == 0 then
            { s2 with interactionCount := next, checkInPrompt := some (checkInText sp) }
          else
            { s2 with interactionCount := next }
        | none => { s2 with interactionCount := next }
      { s3 with loading := false }
    | .httpError errField =>
      let msg := match errField with
        | some e => if strTruthy e then e else "Request failed"
        | none => "Request failed"
      { s1 with errorMsg := msg, loading := false }
    | .networkThrow =>
      { s1 with errorMsg := "Network error", loading := false }

theorem isPrefixOfCL_iff (pat l : List Char) : isPrefixOfCL pat l = true ↔ pat <+: l := by
  induction pat generalizing l with
  | nil => simp [isPrefixOfCL]
  | cons a as ih =>
    cases l with
    | nil => simp [isPrefixOfCL]
    | cons b bs =>
      simp only [isPrefixOfCL, Bool.and_eq_true, beq_iff_eq, ih, List.cons_prefix_cons]

theorem containsList_iff (pat l : List Char) : containsList pat l = true ↔ pat <:+: l := by
  induction l with
  | nil => simp [containsList, isPrefixOfCL_iff]
  | cons c rest ih =>
    simp only [containsList, Bool.or_eq_true, isPrefixOfCL_iff, ih, List.infix_cons_iff]

theorem containsStr_iff (s pat : String) : containsStr s pat = true ↔ pat.data <:+: s.data := by
  simp [containsStr, containsList_iff]

theorem containsStr_eq_false_iff (s pat : String) :
    containsStr s pat = false ↔ ¬ pat.data <:+: s.data := by
  rw [← containsStr_iff]
  cases h : containsStr s pat <;> simp [h]

theorem prefix_append_cases {α : Type} {x a b : List α} (h : x <+: a ++ b) :
    x <+: a ∨ ∃ x₂, x = a ++ x₂ ∧ x₂ <+: b := by
  rcases List.prefix_or_prefix_of_prefix h (List.prefix_append a b) with h1 | h1
  · exact Or.inl h1
  · rcases h1 with ⟨x₂, rfl⟩
    refine Or.inr ⟨x₂, rfl, ?_⟩
    rcases h with ⟨t, ht⟩
    rw [List.append_assoc] at ht
    exact ⟨t, List.append_cancel_left ht⟩

theorem suffix_append_cases {α : Type} {x a b : List α} (h : x <:+ a ++ b) :
    x <:+ b ∨ ∃ x₁, x = x₁ ++ b ∧ x₁ <:+ a := by
  rcases List.suffix_or_suffix_of_suffix h (List.suffix_append a b) with h1 | h1
  · exact Or.inl h1
  · rcases h1 with ⟨x₁, rfl⟩
    refine Or.inr ⟨x₁, rfl, ?_⟩
    rcases h with ⟨t, ht⟩
    rw [← List.append_assoc] at ht
    exact ⟨t, List.append_cancel_right ht⟩

/-- Decomposition of an occurrence inside an append: the pattern lies in the
left part, lies in the right part, or straddles the boundary. -/
theorem infix_append_cases {α : Type} {x a b : List α} (h : x <:+: a ++ b) :
    x <:+: a ∨ x <:+: b ∨
      ∃ x₁ x₂, x = x₁ ++ x₂ ∧ x₁ ≠ [] ∧ x₂ ≠ [] ∧ x₁ <:+ a ∧ x₂ <+: b := by
  rcases List.infix_iff_prefix_suffix.mp h with ⟨t, hxt, hts⟩
  rcases suffix_append_cases hts with h1 | ⟨t₁, rfl, ht₁⟩
  · exact Or.inr (Or.inl (List.infix_iff_prefix_suffix.mpr ⟨t, hxt, h1⟩))
  · rcases prefix_append_cases hxt with h2 | ⟨x₂, rfl, hx₂⟩
    · exact Or.inl (List.infix_iff_prefix_suffix.mpr ⟨t₁, h2, ht₁⟩)
    · by_cases ht1nil : t₁ = []
      · subst ht1nil
        exact Or.inr (Or.inl (List.nil_append x₂ ▸ hx₂).isInfix)
      · by_cases hx2nil : x₂ = []
        · subst hx2nil
          exact Or.inl (by simpa using ht₁.isInfix)
        · exact Or.inr (Or.inr ⟨t₁, x₂, rfl, ht1nil, hx2nil, ht₁, hx₂⟩)

theorem mem_of_getLast?_eq {α : Type} {l : List α} {c : α} (h : l.getLast? = some c) :
    c ∈ l := by
  rw [← List.head?_reverse] at h
  have : c ∈ l.reverse := List.mem_of_mem_head? (by simp [h])
  simpa using this

/-- If a pattern occurs nowhere in `pfx`, `mid` and `sfx` separately, the last
character of `pfx` and the first character of `sfx` do not occur in the
pattern, then the pattern does not occur in `pfx ++ mid ++ sfx` at all
(no straddling occurrence can exist either). -/
theorem containsStr_append3_eq_false (pfx mid sfx pat : String)
    (hpfx : containsStr pfx pat = false)
    (hmid : containsStr mid pat = false)
    (hsfx : containsStr sfx pat = false)
    (c d : Char)
    (hlast : pfx.data.getLast? = some c) (hcpat : c ∉ pat.data)
    (hhead : sfx.data.head? = some d) (hdpat : d ∉ pat.data) :
    containsStr (pfx ++ mid ++ sfx) pat = false := by
  rw [containsStr_eq_false_iff] at hpfx hmid hsfx ⊢
  intro hocc
  rw [String.data_append, String.data_append, List.append_assoc] at hocc
  rcases infix_append_cases hocc with h1 | h1 | ⟨x₁, x₂, hx, hx₁ne, _, hx₁, _⟩
  · exact hpfx h1
  · rcases infix_append_cases h1 with h2 | h2 | ⟨y₁, y₂, hy, _, hy₂ne, _, hy₂⟩
    · exact hmid h2
    · exact hsfx h2
    · rcases hy₂ with ⟨r, hr⟩
      apply hdpat
      rw [hy]
      apply List.mem_append_right
      cases y₂ with
      | nil => exact absurd rfl hy₂ne
      | cons e es =>
        have : d = e := by
          have := congrArg List.head? hr
          rw [hhead] at this
          exact (by simpa using this : e = d).symm
        exact this ▸ List.Mem.head _
  · rcases hx₁ with ⟨u, hu⟩
    apply hcpat
    rw [hx]
    apply List.mem_append_left
    apply mem_of_getLast?_eq
    have := congrArg List.getLast? hu
    rw [hlast, List.getLast?_append] at this
    cases hg : x₁.getLast? with
    | some e =>
      rw [hg] at this
      simpa using this
    | none =>
      exact absurd (List.getLast?_eq_none_iff.mp hg) hx₁ne

theorem dropWhile_eq_self_of_head? {l : List Char} {c : Char}
    (hc : l.head? = some c) (h : jsWhitespace c = false) :
    l.dropWhile jsWhitespace = l := by
  cases l with
  | nil => rfl
  | cons a as =>
    have : a = c := by simpa using hc
    subst this
    simp [List.dropWhile_cons, h]

/-- `jsTrim` is the identity on a string whose first and last characters are
not whitespace. -/
theorem jsTrim_eq_self {s : String} {c d : Char}
    (hh : s.data.head? = some c) (hc : jsWhitespace c = false)
    (hl : s.data.getLast? = some d) (hd : jsWhitespace d = false) :
    jsTrim s = s := by
  have h1 : s.data.dropWhile jsWhitespace = s.data := dropWhile_eq_self_of_head? hh hc
  have h2 : s.data.reverse.dropWhile jsWhitespace = s.data.reverse :=
    dropWhile_eq_self_of_head? (by rw [List.head?_reverse]; exact hl) hd
  show String.mk _ = s
  rw [h1, h2, List.reverse_reverse]

theorem strTruthy_append_left {a : String} (b : String) (h : strTruthy a = true) :
    strTruthy (a ++ b) = true := by
  simp only [strTruthy, Bool.not_eq_true', List.isEmpty_eq_false, String.data_append] at h ⊢
  simp [h]

theorem strTruthy_of_ne_empty {t : String} (h : t ≠ "") : strTruthy t = true := by
  simp only [strTruthy, Bool.not_eq_true', List.isEmpty_eq_false]
  intro hnil
  exact h (String.ext hnil)

theorem strTruthy_empty : strTruthy "" = false := by decide

theorem strTruthy_basePersona : strTruthy basePersona = true := by decide

theorem strTruthy_casePre : strTruthy casePre = true := by decide

theorem strTruthy_modeInstructionsFor (mode : String) :
    strTruthy (modeInstructionsFor mode) = true := by
  unfold modeInstructionsFor
  split_ifs <;> decide

theorem strTruthy_pmLensInstructionsFor (pmLens : Bool) :
    strTruthy (pmLensInstructionsFor pmLens) = true := by
  cases pmLens <;> decide

theorem basePersona_head : basePersona.data.head? = some 'Y' := by decide

theorem pmLensInstructionsFor_last (pmLens : Bool) :
    (pmLensInstructionsFor pmLens).data.getLast? = some '.' := by
  cases pmLens <;> decide

theorem jsTrim_eq_self_head_last (s : String)
    (h1 : ∃ c, s.data.head? = some c ∧ jsWhitespace c = false)
    (h2 : ∃ d, s.data.getLast? = some d ∧ jsWhitespace d = false) :
    jsTrim s = s := by
  rcases h1 with ⟨c, hc1, hc2⟩
  rcases h2 with ⟨d, hd1, hd2⟩
  exact jsTrim_eq_self hc1 hc2 hd1 hd2

/-- With no case tag, the built prompt is base persona, mode block and lens
directive joined by single newlines (the empty segments are filtered out). -/
theorem buildSystemPrompt_none (mode : String) (pmLens : Bool) :
    buildSystemPrompt mode pmLens none =
      basePersona ++ "\n" ++ (modeInstructionsFor mode ++ "\n" ++ pmLensInstructionsFor pmLens) := by
  unfold buildSystemPrompt
  show jsTrim (joinWith "\n" (List.filter strTruthy [basePersona, "", "", "",
      modeInstructionsFor mode, "", pmLensInstructionsFor pmLens])) = _
  rw [show List.filter strTruthy [basePersona, "", "", "",
        modeInstructionsFor mode, "", pmLensInstructionsFor pmLens] =
      [basePersona, modeInstructionsFor mode, pmLensInstructionsFor pmLens] by
    simp [List.filter_cons, strTruthy_empty, strTruthy_basePersona,
      strTruthy_modeInstructionsFor, strTruthy_pmLensInstructionsFor]]
  show jsTrim (basePersona ++ "\n" ++ (modeInstructionsFor mode ++ "\n" ++ pmLensInstructionsFor pmLens)) = _
  apply jsTrim_eq_self_head_last
  · exact ⟨'Y', by simp only [String.data_append, List.head?_append, basePersona_head]; rfl,
      by decide⟩
  · exact ⟨'.', by simp only [String.data_append, List.getLast?_append,
      pmLensInstructionsFor_last pmLens]; rfl, by decide⟩

/-- An empty case tag behaves exactly like an absent one. -/
theorem buildSystemPrompt_some_empty (mode : String) (pmLens : Bool) :
    buildSystemPrompt mode pmLens (some "") = buildSystemPrompt mode pmLens none := by
  unfold buildSystemPrompt
  rfl

/-- With a non-empty case tag `t`, the built prompt carries the case-context
sentence around `t` between base persona and mode block. -/
theorem buildSystemPrompt_some (mode : String) (pmLens : Bool) (t : String) (ht : t ≠ "") :
    buildSystemPrompt mode pmLens (some t) =
      basePersona ++ "\n" ++ ((casePre ++ t ++ casePost) ++ "\n" ++
        (modeInstructionsFor mode ++ "\n" ++ pmLensInstructionsFor pmLens)) := by
  unfold buildSystemPrompt
  have hcc0 : caseContextFor (some t) = casePre ++ t ++ casePost := by
    simp [caseContextFor, strTruthy_of_ne_empty ht]
  rw [hcc0]
  have hcc : strTruthy (casePre ++ t ++ casePost) = true :=
    strTruthy_append_left _ (strTruthy_append_left _ strTruthy_casePre)
  rw [show List.filter strTruthy [basePersona, "", casePre ++ t ++ casePost, "",
        modeInstructionsFor mode, "", pmLensInstructionsFor pmLens] =
      [basePersona, casePre ++ t ++ casePost, modeInstructionsFor mode,
        pmLensInstructionsFor pmLens] by
    simp [List.filter_cons, strTruthy_empty, strTruthy_basePersona, hcc,
      strTruthy_modeInstructionsFor, strTruthy_pmLensInstructionsFor]]
  show jsTrim (basePersona ++ "\n" ++ ((casePre ++ t ++ casePost) ++ "\n" ++
    (modeInstructionsFor mode ++ "\n" ++ pmLensInstructionsFor pmLens))) = _
  apply jsTrim_eq_self_head_last
  · exact ⟨'Y', by simp only [String.data_append, List.head?_append, basePersona_head]; rfl,
      by decide⟩
  · exact ⟨'.', by simp only [String.data_append, List.getLast?_append,
      pmLensInstructionsFor_last pmLens]; rfl, by decide⟩
theorem modeInstructionsFor_cases (mode : String) :
    modeInstructionsFor mode = communicationCoachInstructions ∨
    modeInstructionsFor mode = pmSimulatorInstructions ∨
    modeInstructionsFor mode = workflowHelperInstructions ∨
    modeInstructionsFor mode = safeQaInstructions := by
  unfold modeInstructionsFor
  split_ifs <;> simp

theorem modeInstructionsFor_unrecognized (mode : String)
    (h : mode ∉ (["communication_coach", "pm_simulator", "workflow_helper", "safe_qa"] : List String)) :
    modeInstructionsFor mode = safeQaInstructions := by
  simp only [List.mem_cons, List.not_mem_nil, or_false, not_or] at h
  obtain ⟨h1, h2, h3, -⟩ := h
  unfold modeInstructionsFor
  rw [if_neg h1, if_neg h2, if_neg h3]

theorem infix_of_infix_right {α : Type} (a : List α) {m r : List α} (h : m <:+: r) :
    m <:+: a ++ r := by
  rcases h with ⟨u, v, huv⟩
  exact ⟨a ++ u, v, by rw [← huv]; simp [List.append_assoc]⟩

theorem infix_head {α : Type} (m b : List α) : m <:+: m ++ b :=
  (List.prefix_append m b).isInfix

/-- Every built prompt contains the base persona, the selected mode block and
the selected lens directive. -/
theorem prompt_contains_core (mode : String) (pmLens : Bool) (caseTag : Option String) :
    containsStr (buildSystemPrompt mode pmLens caseTag) basePersona = true ∧
    containsStr (buildSystemPrompt mode pmLens caseTag) (modeInstructionsFor mode) = true ∧
    containsStr (buildSystemPrompt mode pmLens caseTag) (pmLensInstructionsFor pmLens) = true := by
  have core_none : ∀ (m : String) (b : Bool),
      containsStr (buildSystemPrompt m b none) basePersona = true ∧
      containsStr (buildSystemPrompt m b none) (modeInstructionsFor m) = true ∧
      containsStr (buildSystemPrompt m b none) (pmLensInstructionsFor b) = true := by
    intro m b
    rw [buildSystemPrompt_none]
    refine ⟨?_, ?_, ?_⟩ <;> rw [containsStr_iff] <;>
      simp only [String.data_append, List.append_assoc]
    · exact (List.prefix_append _ _).isInfix
    · exact infix_of_infix_right _ (infix_of_infix_right _ (infix_head _ _))
    · exact infix_of_infix_right _ (infix_of_infix_right _ (infix_of_infix_right _
        ((List.suffix_append _ _).isInfix)))
  match caseTag with
  | none => exact core_none mode pmLens
  | some t =>
    by_cases ht : t = ""
    · subst ht
      rw [buildSystemPrompt_some_empty]
      exact core_none mode pmLens
    · rw [buildSystemPrompt_some mode pmLens t ht]
      refine ⟨?_, ?_, ?_⟩ <;> rw [containsStr_iff] <;>
        simp only [String.data_append, List.append_assoc]
      · exact (List.prefix_append _ _).isInfix
      · exact infix_of_infix_right _ (infix_of_infix_right _ (infix_of_infix_right _
          (infix_of_infix_right _ (infix_of_infix_right _ (infix_of_infix_right _
            (infix_head _ _))))))
      · exact infix_of_infix_right _ (infix_of_infix_right _ (infix_of_infix_right _
          (infix_of_infix_right _ (infix_of_infix_right _ (infix_of_infix_right _
            (infix_of_infix_right _ ((List.suffix_append _ _).isInfix)))))))
/-- C1: for every one of the four recognized mode values and every combination
of the pmLens flag and case label, `buildSystemPrompt` returns a string
containing that mode's instruction block, and for each of the four recognized
modes the returned string contains the shared base persona text. -/
theorem C1_recognized_modes_prompt (pmLens : Bool) (caseTag : Option String) :
    containsStr (buildSystemPrompt "communication_coach" pmLens caseTag)
      communicationCoachInstructions = true ∧
    containsStr (buildSystemPrompt "pm_simulator" pmLens caseTag)
      pmSimulatorInstructions = true ∧
    containsStr (buildSystemPrompt "workflow_helper" pmLens caseTag)
      workflowHelperInstructions = true ∧
    containsStr (buildSystemPrompt "safe_qa" pmLens caseTag)
      safeQaInstructions = true ∧
    ∀ mode ∈ (["communication_coach", "pm_simulator", "workflow_helper", "safe_qa"] : List String),
      containsStr (buildSystemPrompt mode pmLens caseTag) basePersona = true := by
  refine ⟨?_, ?_, ?_, ?_, ?_⟩
  · have h := (prompt_contains_core "communication_coach" pmLens caseTag).2.1
    rwa [show modeInstructionsFor "communication_coach" = communicationCoachInstructions from by
      simp [modeInstructionsFor]] at h
  · have h := (prompt_contains_core "pm_simulator" pmLens caseTag).2.1
    rwa [show modeInstructionsFor "pm_simulator" = pmSimulatorInstructions from by
      simp [modeInstructionsFor]] at h
  · have h := (prompt_contains_core "workflow_helper" pmLens caseTag).2.1
    rwa [show modeInstructionsFor "workflow_helper" = workflowHelperInstructions from by
      simp [modeInstructionsFor]] at h
  · have h := (prompt_contains_core "safe_qa" pmLens caseTag).2.1
    rwa [show modeInstructionsFor "safe_qa" = safeQaInstructions from by
      simp [modeInstructionsFor]] at h
  · intro mode _
    exact (prompt_contains_core mode pmLens caseTag).1

/-- Witness for C1 at a concrete mode, flag and case label. -/
theorem C1_witness :
    containsStr (buildSystemPrompt "pm_simulator" true (some "EV pitch"))
      pmSimulatorInstructions = true ∧
    containsStr (buildSystemPrompt "pm_simulator" true (some "EV pitch")) basePersona = true :=
  ⟨(C1_recognized_modes_prompt true (some "EV pitch")).2.1,
   (C1_recognized_modes_prompt true (some "EV pitch")).2.2.2.2 "pm_simulator" (by decide)⟩

/-- C2: for every unrecognized mode value, `buildSystemPrompt` totally
evaluates to a prompt containing the default (safe_qa) instruction block, and
the gateway does not answer 400 to such a request when the mode string is
non-empty and the message list is non-empty. -/
theorem C2_unrecognized_mode_fallback (mode : String) (pmLens : Bool) (caseTag : Option String)
    (key : Bool) (msgs : List ClientMessage) (provider : ProviderOutcome)
    (hmode : mode ∉ (["communication_coach", "pm_simulator", "workflow_helper", "safe_qa"] : List String))
    (hne : mode ≠ "") (hmsgs : msgs ≠ []) :
    containsStr (buildSystemPrompt mode pmLens caseTag) safeQaInstructions = true ∧
    (POST key
      (.parsed { mode := some mode
                 messages := some msgs
                 pmLens := some pmLens
                 caseTag := caseTag }) provider).status ≠ 400 := by
  constructor
  · have h := (prompt_contains_core mode pmLens caseTag).2.1
    rwa [modeInstructionsFor_unrecognized mode hmode] at h
  · cases key
    · simp [POST]
    · cases provider <;>
        simp [POST, modeTruthy, strTruthy_of_ne_empty hne, hmsgs]

/-- Witness for C2 at a concrete unrecognized mode and non-empty messages. -/
theorem C2_witness :
    ("mystery_mode" ∉ (["communication_coach", "pm_simulator", "workflow_helper", "safe_qa"] : List String)) ∧
    "mystery_mode" ≠ "" ∧
    ([{ role := Role.user, content := "hi" }] : List ClientMessage) ≠ [] ∧
    (containsStr (buildSystemPrompt "mystery_mode" false none) safeQaInstructions = true ∧
     (POST true
       (.parsed { mode := some "mystery_mode"
                  messages := some [{ role := Role.user, content := "hi" }]
                  pmLens := some false
                  caseTag := none }) (.success "ok")).status ≠ 400) :=
  ⟨by decide, by decide, by decide,
   C2_unrecognized_mode_fallback "mystery_mode" false none true
     [{ role := Role.user, content := "hi" }] (.success "ok")
     (by decide) (by decide) (by decide)⟩
/-- C8: the built prompt contains the case-context sentence mentioning the
supplied case label exactly when a non-empty label was supplied; with a null
or empty label the prompt is just persona, mode block and lens directive
joined by single newlines (no case sentence, no extra blank segment). -/
theorem C8_case_context (mode : String) (pmLens : Bool) (caseTag : Option String) :
    (∀ t, caseTag = some t → t ≠ "" →
      containsStr (buildSystemPrompt mode pmLens caseTag) (casePre ++ t ++ casePost) = true) ∧
    ((caseTag = none ∨ caseTag = some "") →
      buildSystemPrompt mode pmLens caseTag =
        basePersona ++ "\n" ++ (modeInstructionsFor mode ++ "\n" ++ pmLensInstructionsFor pmLens) ∧
      containsStr (buildSystemPrompt mode pmLens caseTag) casePre = false) := by
  constructor
  · rintro t rfl ht
    rw [buildSystemPrompt_some mode pmLens t ht, containsStr_iff]
    simp only [String.data_append, List.append_assoc]
    exact ⟨basePersona.data ++ ("\n" : String).data,
      ("\n" : String).data ++ ((modeInstructionsFor mode).data ++
        (("\n" : String).data ++ (pmLensInstructionsFor pmLens).data)),
      by simp [List.append_assoc]⟩
  · intro hc
    have hn : buildSystemPrompt mode pmLens caseTag =
        basePersona ++ "\n" ++ (modeInstructionsFor mode ++ "\n" ++ pmLensInstructionsFor pmLens) := by
      rcases hc with rfl | rfl
      · exact buildSystemPrompt_none mode pmLens
      · rw [buildSystemPrompt_some_empty]
        exact buildSystemPrompt_none mode pmLens
    refine ⟨hn, ?_⟩
    rw [hn]
    rcases modeInstructionsFor_cases mode with hM | hM | hM | hM <;> rw [hM] <;>
      cases pmLens <;> decide

/-- Witness for C8 at concrete inputs, on both sides of the iff. -/
theorem C8_witness :
    containsStr (buildSystemPrompt "workflow_helper" false (some "EV pitch"))
      (casePre ++ "EV pitch" ++ casePost) = true ∧
    containsStr (buildSystemPrompt "workflow_helper" false none) casePre = false :=
  ⟨(C8_case_context "workflow_helper" false (some "EV pitch")).1 "EV pitch" rfl (by decide),
   ((C8_case_context "workflow_helper" false none).2 (Or.inl rfl)).2⟩
theorem tagAvoids_some (t : String) (h : tagAvoidsDirectives (some t) = true) :
    containsStr t pmLensOnInstructions = false ∧ containsStr t pmLensOffInstructions = false := by
  simpa only [tagAvoidsDirectives, Bool.and_eq_true, Bool.not_eq_true'] using h

theorem prompt_some_no_pat (M L pat t : String)
    (hpfx : containsStr (basePersona ++ "\n" ++ casePre) pat = false)
    (ht' : containsStr t pat = false)
    (hsfx : containsStr (casePost ++ "\n" ++ (M ++ "\n" ++ L)) pat = false)
    (hc : '“' ∉ pat.data) (hd : '”' ∉ pat.data) :
    containsStr (basePersona ++ "\n" ++ ((casePre ++ t ++ casePost) ++ "\n" ++ (M ++ "\n" ++ L)))
      pat = false := by
  rw [show basePersona ++ "\n" ++ ((casePre ++ t ++ casePost) ++ "\n" ++ (M ++ "\n" ++ L)) =
      (basePersona ++ "\n" ++ casePre) ++ t ++ (casePost ++ "\n" ++ (M ++ "\n" ++ L)) from by
    apply String.ext
    simp [String.data_append, List.append_assoc]]
  refine containsStr_append3_eq_false _ _ _ _ hpfx ht' hsfx '“' '”' (by decide) hc ?_ hd
  rw [show (casePost ++ "\n" ++ (M ++ "\n" ++ L)).data.head? = some '”' from by
    simp only [String.data_append, List.head?_append,
      show casePost.data.head? = some '”' from by decide]
    rfl]

theorem build_no_pat (mode : String) (b : Bool) (caseTag : Option String) (pat : String)
    (hnone : ∀ M, (M = communicationCoachInstructions ∨ M = pmSimulatorInstructions ∨
        M = workflowHelperInstructions ∨ M = safeQaInstructions) →
      containsStr (basePersona ++ "\n" ++ (M ++ "\n" ++ pmLensInstructionsFor b)) pat = false)
    (hsfx : ∀ M, (M = communicationCoachInstructions ∨ M = pmSimulatorInstructions ∨
        M = workflowHelperInstructions ∨ M = safeQaInstructions) →
      containsStr (casePost ++ "\n" ++ (M ++ "\n" ++ pmLensInstructionsFor b)) pat = false)
    (hpfx : containsStr (basePersona ++ "\n" ++ casePre) pat = false)
    (hct : ∀ t, caseTag = some t → containsStr t pat = false)
    (hc : '“' ∉ pat.data) (hd : '”' ∉ pat.data) :
    containsStr (buildSystemPrompt mode b caseTag) pat = false := by
  rcases caseTag with _ | t
  · rw [buildSystemPrompt_none]
    exact hnone _ (modeInstructionsFor_cases mode)
  · by_cases ht : t = ""
    · subst ht
      rw [buildSystemPrompt_some_empty, buildSystemPrompt_none]
      exact hnone _ (modeInstructionsFor_cases mode)
    · rw [buildSystemPrompt_some mode b t ht]
      exact prompt_some_no_pat _ _ _ _ hpfx (hct t rfl)
        (hsfx _ (modeInstructionsFor_cases mode)) hc hd

/-- With pmLens on, the OFF directive appears nowhere in the prompt as long as
the case label itself does not embed it. -/
theorem prompt_on_no_off (mode : String) (caseTag : Option String)
    (hct : ∀ t, caseTag = some t → containsStr t pmLensOffInstructions = false) :
    containsStr (buildSystemPrompt mode true caseTag) pmLensOffInstructions = false :=
  build_no_pat mode true caseTag pmLensOffInstructions
    (by rintro M (rfl | rfl | rfl | rfl) <;> decide)
    (by rintro M (rfl | rfl | rfl | rfl) <;> decide)
    (by decide) hct (by decide) (by decide)

/-- With pmLens off, the ON directive appears nowhere in the prompt as long as
the case label itself does not embed it. -/
theorem prompt_off_no_on (mode : String) (caseTag : Option String)
    (hct : ∀ t, caseTag = some t → containsStr t pmLensOnInstructions = false) :
    containsStr (buildSystemPrompt mode false caseTag) pmLensOnInstructions = false :=
  build_no_pat mode false caseTag pmLensOnInstructions
    (by rintro M (rfl | rfl | rfl | rfl) <;> decide)
    (by rintro M (rfl | rfl | rfl | rfl) <;> decide)
    (by decide) hct (by decide) (by decide)

/-- C3 counterexample: the claim "no built prompt ever contains both
directives" is false as stated — a case label consisting of the OFF directive
text produces a prompt (with pmLens on) that contains both directives. -/
theorem C3_counterexample :
    containsStr (buildSystemPrompt "safe_qa" true (some pmLensOffInstructions))
      pmLensOnInstructions = true ∧
    containsStr (buildSystemPrompt "safe_qa" true (some pmLensOffInstructions))
      pmLensOffInstructions = true := by
  constructor
  · have h := (prompt_contains_core "safe_qa" true (some pmLensOffInstructions)).2.2
    simpa [pmLensInstructionsFor] using h
  · have hne : pmLensOffInstructions ≠ "" := by decide
    rw [buildSystemPrompt_some _ _ _ hne, containsStr_iff]
    simp only [String.data_append, List.append_assoc]
    exact infix_of_infix_right _ (infix_of_infix_right _ (infix_of_infix_right _
      (infix_head _ _)))

/-- C3 (amended): for every mode and flag, and every case label that does not
itself embed either directive, the prompt contains the ON directive exactly
when the flag is true and the OFF directive exactly when the flag is false —
so the two directives are mutually exclusive per build. -/
theorem C3_amended_lens_directives (mode : String) (pmLens : Bool) (caseTag : Option String)
    (hct : tagAvoidsDirectives caseTag = true) :
    containsStr (buildSystemPrompt mode pmLens caseTag) pmLensOnInstructions = pmLens ∧
    containsStr (buildSystemPrompt mode pmLens caseTag) pmLensOffInstructions = !pmLens := by
  have h3 := (prompt_contains_core mode pmLens caseTag).2.2
  cases pmLens
  · exact ⟨prompt_off_no_on mode caseTag (fun t h => (tagAvoids_some t (h ▸ hct)).1),
      by simpa [pmLensInstructionsFor] using h3⟩
  · exact ⟨by simpa [pmLensInstructionsFor] using h3,
      prompt_on_no_off mode caseTag (fun t h => (tagAvoids_some t (h ▸ hct)).2)⟩

/-- Witness for the amended C3 at a concrete mode, flag and innocuous label. -/
theorem C3_witness :
    tagAvoidsDirectives (some "EV pitch") = true ∧
    (containsStr (buildSystemPrompt "communication_coach" true (some "EV pitch"))
        pmLensOnInstructions = true ∧
     containsStr (buildSystemPrompt "communication_coach" true (some "EV pitch"))
        pmLensOffInstructions = !true) :=
  ⟨by decide,
   C3_amended_lens_directives "communication_coach" true (some "EV pitch") (by decide)⟩
/-- C5: with the credential configured, a parsed body whose message list is
empty or not an array, or whose mode field is absent, is answered 400 and the
provider is never invoked. -/
theorem C5_invalid_body_rejected (body : MentorRequestBody) (provider : ProviderOutcome)
    (h : body.messages = none ∨ body.messages = some [] ∨ body.mode = none) :
    (POST true (.parsed body) provider).status = 400 ∧
    (POST true (.parsed body) provider).calledWith = none := by
  constructor <;> rcases h with h | h | h <;> simp [POST, h, modeTruthy]

/-- Witness for C5 on a concrete body with an empty message list. -/
theorem C5_witness :
    ((some ([] : List ClientMessage) = none ∨ some ([] : List ClientMessage) = some [] ∨
        (some "safe_qa" : Option String) = none) ∧
     ((POST true (.parsed { mode := some "safe_qa"
                            messages := some []
                            pmLens := none
                            caseTag := none }) (.success "ok")).status = 400 ∧
      (POST true (.parsed { mode := some "safe_qa"
                            messages := some []
                            pmLens := none
                            caseTag := none }) (.success "ok")).calledWith = none)) :=
  ⟨Or.inr (Or.inl rfl),
   C5_invalid_body_rejected { mode := some "safe_qa"
                              messages := some []
                              pmLens := none
                              caseTag := none } (.success "ok") (Or.inr (Or.inl rfl))⟩

/-- C6: without the configured credential the handler answers 500 with the
descriptive configuration message and never calls the provider — for every
request body, including one whose JSON does not even parse (the check runs
before body parsing). -/
theorem C6_missing_key (req : BodyInput) (provider : ProviderOutcome) :
    (POST false req provider).status = 500 ∧
    (POST false req provider).error = some missingKeyError ∧
    (POST false req provider).calledWith = none := by
  refine ⟨?_, ?_, ?_⟩ <;> simp [POST]

/-- C7: for a valid request, a provider that throws an `Error` yields a 500
whose body carries that error's message, and a thrown non-`Error` yields a 500
with the generic message. -/
theorem C7_provider_throw (body : MentorRequestBody) (m : String)
    (hv : validBody body = true) :
    (POST true (.parsed body) (.throwErr m)).status = 500 ∧
    (POST true (.parsed body) (.throwErr m)).error = some m ∧
    (POST true (.parsed body) (.throwNonErr)).status = 500 ∧
    (POST true (.parsed body) (.throwNonErr)).error = some genericServerError := by
  simp only [validBody, Bool.and_eq_true, Bool.not_eq_true'] at hv
  obtain ⟨⟨h1, h2⟩, h3⟩ := hv
  refine ⟨?_, ?_, ?_, ?_⟩ <;> simp [POST, h1, h2, h3]

/-- Witness for C7 on a concrete valid body. -/
theorem C7_witness :
    validBody { mode := some "pm_simulator"
                messages := some [{ role := Role.user, content := "hi" }]
                pmLens := some true
                caseTag := some "EV pitch" } = true ∧
    ((POST true (.parsed { mode := some "pm_simulator"
                           messages := some [{ role := Role.user, content := "hi" }]
                           pmLens := some true
                           caseTag := some "EV pitch" }) (.throwErr "boom")).status = 500 ∧
     (POST true (.parsed { mode := some "pm_simulator"
                           messages := some [{ role := Role.user, content := "hi" }]
                           pmLens := some true
                           caseTag := some "EV pitch" }) (.throwErr "boom")).error = some "boom" ∧
     (POST true (.parsed { mode := some "pm_simulator"
                           messages := some [{ role := Role.user, content := "hi" }]
                           pmLens := some true
                           caseTag := some "EV pitch" }) .throwNonErr).status = 500 ∧
     (POST true (.parsed { mode := some "pm_simulator"
                           messages := some [{ role := Role.user, content := "hi" }]
                           pmLens := some true
                           caseTag := some "EV pitch" }) .throwNonErr).error =
       some genericServerError) :=
  ⟨by decide,
   C7_provider_throw { mode := some "pm_simulator"
                       messages := some [{ role := Role.user, content := "hi" }]
                       pmLens := some true
                       caseTag := some "EV pitch" } "boom" (by decide)⟩

/-- C9: every response of the handler has exactly one of the two shapes — a
200 with an `answer` field and no `error` field, or a 4xx/5xx with an `error`
field and no `answer` field. -/
theorem C9_response_shape (key : Bool) (req : BodyInput) (provider : ProviderOutcome) :
    ((POST key req provider).status = 200 ∧ (POST key req provider).answer.isSome = true ∧
      (POST key req provider).error = none) ∨
    ((400 ≤ (POST key req provider).status ∧ (POST key req provider).status ≤ 599) ∧
      (POST key req provider).error.isSome = true ∧ (POST key req provider).answer = none) := by
  cases key
  · right
    refine ⟨⟨?_, ?_⟩, ?_, ?_⟩ <;> simp [POST]
  · rcases req with m | ⟨bmode, bmsgs, bpm, btag⟩
    · right
      refine ⟨⟨?_, ?_⟩, ?_, ?_⟩ <;> simp [POST]
    · cases hmt : modeTruthy bmode
      · right
        refine ⟨⟨?_, ?_⟩, ?_, ?_⟩ <;> simp [POST, hmt]
      · rcases bmsgs with _ | msgs
        · right
          refine ⟨⟨?_, ?_⟩, ?_, ?_⟩ <;> simp [POST, hmt]
        · rcases msgs with _ | ⟨m0, rest⟩
          · right
            refine ⟨⟨?_, ?_⟩, ?_, ?_⟩ <;> simp [POST, hmt]
          · rcases provider with t | msg
            · left
              refine ⟨?_, ?_, ?_⟩ <;> simp [POST, hmt]
            · right
              refine ⟨⟨?_, ?_⟩, ?_, ?_⟩ <;> simp [POST, hmt]
            · right
              refine ⟨⟨?_, ?_⟩, ?_, ?_⟩ <;> simp [POST, hmt]
theorem length_insertAsc (p : String × Int) (l : List (String × Int)) :
    (insertAsc p l).length = l.length + 1 := by
  induction l with
  | nil => rfl
  | cons q qs ih => by_cases h : p.2 ≤ q.2 <;> simp [insertAsc, h, ih]

theorem length_sortByScore (l : List (String × Int)) :
    (sortByScore l).length = l.length := by
  induction l with
  | nil => rfl
  | cons x xs ih =>
    show (insertAsc x (sortByScore xs)).length = xs.length + 1
    rw [length_insertAsc, ih]

/-- The head of the stable sort carries a minimal score. -/
theorem sortByScore_head_min (l : List (String × Int)) (p : String × Int)
    (hp : (sortByScore l).head? = some p) : ∀ e ∈ l, p.2 ≤ e.2 := by
  induction l generalizing p with
  | nil => simp [sortByScore] at hp
  | cons x xs ih =>
    have hx : sortByScore (x :: xs) = insertAsc x (sortByScore xs) := rfl
    rw [hx] at hp
    cases hs : sortByScore xs with
    | nil =>
      have hxs : xs = [] := by
        have := length_sortByScore xs
        rw [hs] at this
        exact List.length_eq_zero.mp this.symm
      rw [hs] at hp
      simp [insertAsc] at hp
      subst hxs
      simp [hp]
    | cons q qs =>
      rw [hs] at hp
      have hq : ∀ e ∈ xs, q.2 ≤ e.2 := ih q (by rw [hs]; rfl)
      by_cases hxq : x.2 ≤ q.2
      · rw [show insertAsc x (q :: qs) = x :: q :: qs from by simp [insertAsc, hxq]] at hp
        have hpx : x = p := by simpa using hp
        subst hpx
        intro e he
        rcases List.mem_cons.mp he with rfl | he
        · exact le_refl _
        · exact le_trans hxq (hq e he)
      · rw [show insertAsc x (q :: qs) = q :: insertAsc x qs from by simp [insertAsc, hxq]] at hp
        have hpq : q = p := by simpa using hp
        subst hpq
        intro e he
        rcases List.mem_cons.mp he with rfl | he
        · exact le_of_lt (lt_of_not_le hxq)
        · exact hq e he

theorem sortByScore_scoreEntries_ne_nil (scores : SkillsScores) :
    sortByScore (scoreEntries scores) ≠ [] := by
  intro h
  have := length_sortByScore (scoreEntries scores)
  rw [h] at this
  simp [scoreEntries] at this

/-- C4 counterexample: with scores (data 1, modeling 2, others 5) the two
lowest-confidence skills are data and modeling, yet step 1's description does
not name the second of them — the code interpolates only `weakestLabels[0]`. -/
theorem C4_counterexample :
    weakestLabels ⟨1, 2, 5, 5, 5⟩ =
      ["Data work (pulling, cleaning, basic analysis)",
       "Modeling (Excel, valuations, scenarios)"] ∧
    containsStr ((generateSkillsPath ⟨1, 2, 5, 5, 5⟩ "2026-01-01T00:00:00.000Z").steps.headD
        default).description
      "Modeling (Excel, valuations, scenarios)" = false := by
  constructor <;> decide

/-- C4 (amended): for every assignment of the five confidence scores, step 1's
description names the (single) lowest-confidence skill, and the labels, weeks
and the descriptions of steps 2 and 3 are fixed strings independent of the
scores. -/
theorem C4_amended_skills_path (scores : SkillsScores) (now : String) :
    ∃ m rest, sortByScore (scoreEntries scores) = m :: rest ∧
      (∀ e ∈ scoreEntries scores, m.2 ≤ e.2) ∧
      containsStr ((generateSkillsPath scores now).steps.headD default).description
        (labelForSkill m.1) = true ∧
      (generateSkillsPath scores now).steps.map (fun st => st.label) =
        ["Communication Coach", "PM Simulator", "Workflow Helper"] ∧
      (generateSkillsPath scores now).steps.map (fun st => st.week) = [1, 2, 3] ∧
      ((generateSkillsPath scores now).steps.getD 1 default).description =
        "Pick ONE investment idea and run 2 deeper PM Simulator sessions to pressure-test the thesis like an investment committee would." ∧
      ((generateSkillsPath scores now).steps.getD 2 default).description =
        "Use Workflow Helper to structure a full week: daily tasks, research blocks, and check-ins with your PM around that same idea." := by
  obtain ⟨m, rest, hsort⟩ : ∃ m rest, sortByScore (scoreEntries scores) = m :: rest := by
    cases hs : sortByScore (scoreEntries scores) with
    | nil => exact absurd hs (sortByScore_scoreEntries_ne_nil scores)
    | cons a l => exact ⟨a, l, rfl⟩
  have hw : (weakestLabels scores).headD "undefined" = labelForSkill m.1 := by
    simp [weakestLabels, hsort]
  refine ⟨m, rest, hsort, sortByScore_head_min _ m (by rw [hsort]; rfl), ?_, rfl, rfl, rfl, rfl⟩
  show containsStr ("Focus on communication and soft skills, especially around \"" ++
      (weakestLabels scores).headD "undefined" ++
      "\". Aim for ~3 real emails or updates this week using Communication Coach.")
    (labelForSkill m.1) = true
  rw [hw, containsStr_iff]
  simp only [String.data_append, List.append_assoc]
  exact infix_of_infix_right _ (infix_head _ _)

/-- C10: `handleSend` never touches the history of any mode other than the
current one, and the current mode's history is only ever extended (the old
history stays a prefix), whatever the fetch outcome. -/
theorem C10_other_histories_unchanged (s : UIState) (outcome : FetchOutcome) (m' : MentorMode)
    (h : m' ≠ s.mode) :
    (handleSend s outcome).histories m' = s.histories m' ∧
    s.histories s.mode <+: (handleSend s outcome).histories s.mode := by
  simp only [handleSend]
  split
  · exact ⟨rfl, List.prefix_refl _⟩
  · rcases outcome with ans | errF | _
    · rcases s.skillsPath with _ | sp
      · refine ⟨by simp [setHistory, h], ?_⟩
        simp [setHistory]
      · by_cases hmod : (s.interactionCount + 1) % 5 = 0
        · refine ⟨by simp [setHistory, h, hmod], ?_⟩
          simp [setHistory, hmod]
        · refine ⟨by simp [setHistory, h, hmod], ?_⟩
          simp [setHistory, hmod]
    · refine ⟨by simp [setHistory, h], ?_⟩
      simp [setHistory]
    · refine ⟨by simp [setHistory, h], ?_⟩
      simp [setHistory]

/-- Witness for C10 on a concrete state and a successful exchange. -/
theorem C10_witness :
    (MentorMode.safe_qa ≠ MentorMode.communication_coach) ∧
    ((handleSend ⟨MentorMode.communication_coach, fun _ => [], "hi", false, "", 0, none, none⟩
        (.ok "hello")).histories MentorMode.safe_qa = [] ∧
     ([] : List ChatMessage) <+:
       (handleSend ⟨MentorMode.communication_coach, fun _ => [], "hi", false, "", 0, none, none⟩
         (.ok "hello")).histories MentorMode.communication_coach) :=
  ⟨by decide,
   C10_other_histories_unchanged
     ⟨MentorMode.communication_coach, fun _ => [], "hi", false, "", 0, none, none⟩
     (.ok "hello") MentorMode.safe_qa (by decide)⟩
